import Mathlib

/-!
Verification of the BitFlow Python SDK (`sdk/python/bitflow`) against its
natural-language specification.  The development shallowly embeds the two
components the claims are about:

* `webhook.py` — `WebhookHandler.verify_signature`, `WebhookHandler.process_webhook`,
  and the callback-registration methods (`on_event`, `on_webhook`);
* `client.py` — the query-parameter construction of `BitFlowClient.get_streams`
  and the status-code dispatch of `BitFlowClient._request`;
* `exceptions.py` / `types.py` — the error taxonomy and the data model.

Python machinery the source leans on (HMAC-SHA256 from `hmac`/`hashlib`,
`json.loads`, dict subscripting, `int()`, string truthiness,
`hmac.compare_digest`) is embedded executably so that every claim can be
evaluated on concrete inputs.  Machine integers are `Nat` with explicit
`% 2 ^ 32` where 32-bit wraparound matters.
-/

namespace BitFlow

/-! ### 32-bit words and SHA-256 primitives.

SHA-256 is embedded in full (FIPS 180-4): `hashlib.sha256` is the digest the
source fixes at `webhook.py:38`.  Words are `Nat` kept below `2 ^ 32` by `w32`.
The round constants and initial hash value are not transcribed numerals: they
are computed from their definition (fractional parts of cube / square roots of
the first primes), and the implementation is checked below against the
standard test vectors for `sha256` and RFC 4231 for HMAC.  -/

/-- Truncate to a 32-bit word. -/
def w32 (n : Nat) : Nat := n % 4294967296

/-- Rotate a 32-bit word right by `k` (for `x < 2 ^ 32`, `k ≤ 32`). -/
def rotr (k x : Nat) : Nat := w32 (x / 2 ^ k + x % 2 ^ k * 2 ^ (32 - k))

/-- Bitwise complement on 32-bit words. -/
def wnot (x : Nat) : Nat := x ^^^ 4294967295

/-- SHA-256 `Ch` function. -/
def shaCh (x y z : Nat) : Nat := (x &&& y) ^^^ (wnot x &&& z)

/-- SHA-256 `Maj` function. -/
def shaMaj (x y z : Nat) : Nat := (x &&& y) ^^^ (x &&& z) ^^^ (y &&& z)

/-- SHA-256 `Σ0`. -/
def bigSigma0 (x : Nat) : Nat := rotr 2 x ^^^ rotr 13 x ^^^ rotr 22 x

/-- SHA-256 `Σ1`. -/
def bigSigma1 (x : Nat) : Nat := rotr 6 x ^^^ rotr 11 x ^^^ rotr 25 x

/-- SHA-256 `σ0`. -/
def smallSigma0 (x : Nat) : Nat := rotr 7 x ^^^ rotr 18 x ^^^ x / 2 ^ 3

/-- SHA-256 `σ1`. -/
def smallSigma1 (x : Nat) : Nat := rotr 17 x ^^^ rotr 19 x ^^^ x / 2 ^ 10

/-- Binary search for the integer cube root: returns `lo` with
`lo ^ 3 ≤ n < hi ^ 3` once the bracket closes.  Fuel-driven. -/
def icbrtAux (n : Nat) : Nat → Nat → Nat → Nat
  | 0, lo, _ => lo
  | fuel + 1, lo, hi =>
    if hi ≤ lo + 1 then lo
    else
      let mid := (lo + hi) / 2
      if mid ^ 3 ≤ n then icbrtAux n fuel mid hi else icbrtAux n fuel lo mid

/-- Integer cube root of `n` for `n < 2 ^ 108`. -/
def icbrt (n : Nat) : Nat := icbrtAux n 40 0 (2 ^ 36)

/-- Binary search for the integer square root (same scheme as `icbrtAux`). -/
def isqrtAux (n : Nat) : Nat → Nat → Nat → Nat
  | 0, lo, _ => lo
  | fuel + 1, lo, hi =>
    if hi ≤ lo + 1 then lo
    else
      let mid := (lo + hi) / 2
      if mid ^ 2 ≤ n then isqrtAux n fuel mid hi else isqrtAux n fuel lo mid

/-- Integer square root of `n` for `n < 2 ^ 72`. -/
def isqrt (n : Nat) : Nat := isqrtAux n 40 0 (2 ^ 36)

/-- The first sixty-four primes, whose cube roots generate the SHA-256 round
constants. -/
def sha256Primes : List Nat :=
  [2, 3, 5, 7, 11, 13, 17, 19, 23, 29, 31, 37, 41, 43, 47, 53,
   59, 61, 67, 71, 73, 79, 83, 89, 97, 101, 103, 107, 109, 113, 127, 131,
   137, 139, 149, 151, 157, 163, 167, 173, 179, 181, 191, 193, 197, 199, 211, 223,
   227, 229, 233, 239, 241, 251, 257, 263, 269, 271, 277, 281, 283, 293, 307, 311]

/-- SHA-256 round constants: the first 32 bits of the fractional parts of the
cube roots of the first 64 primes. -/
def K256 : List Nat := sha256Primes.map (fun p => icbrt (p * 2 ^ 96) % 2 ^ 32)

/-- SHA-256 initial hash value: the first 32 bits of the fractional parts of
the square roots of the first 8 primes. -/
def sha256InitWord (p : Nat) : Nat := isqrt (p * 2 ^ 64) % 2 ^ 32

/-- The eight-word working state of SHA-256. -/
structure Hash8 where
  a : Nat
  b : Nat
  c : Nat
  d : Nat
  e : Nat
  f : Nat
  g : Nat
  hh : Nat

/-- SHA-256 initial state. -/
def sha256Init : Hash8 :=
  ⟨sha256InitWord 2, sha256InitWord 3, sha256InitWord 5, sha256InitWord 7,
   sha256InitWord 11, sha256InitWord 13, sha256InitWord 17, sha256InitWord 19⟩

/-- Big-endian 32-bit words from a byte list (length a multiple of 4). -/
def bytesToWords : List Nat → List Nat
  | a :: b :: c :: d :: rest => (((a * 256 + b) * 256 + c) * 256 + d) :: bytesToWords rest
  | _ => []

/-- Big-endian bytes of a 32-bit word. -/
def wordToBytes (w : Nat) : List Nat :=
  [w / 16777216 % 256, w / 65536 % 256, w / 256 % 256, w % 256]

/-- Big-endian 8-byte rendering of the 64-bit message bit length. -/
def len64ToBytes (n : Nat) : List Nat :=
  [n / 2 ^ 56 % 256, n / 2 ^ 48 % 256, n / 2 ^ 40 % 256, n / 2 ^ 32 % 256,
   n / 2 ^ 24 % 256, n / 2 ^ 16 % 256, n / 2 ^ 8 % 256, n % 256]

/-- SHA-256 padding: append `0x80`, zero bytes until the length is 56 mod 64,
then the bit length as an 8-byte big-endian integer.  The zero count
`(119 - L % 64) % 64` never truncates (`L % 64 ≤ 63 < 119`) and satisfies
`(L + 1 + zeros) % 64 = 56` for every `L`. -/
def shaPad (msg : List Nat) : List Nat :=
  let L := msg.length
  let zeros := (119 - L % 64) % 64
  msg ++ 128 :: List.replicate zeros 0 ++ len64ToBytes (L * 8)

/-- Extend the (reversed) message schedule by `fuel` further words. -/
def schedExtend : Nat → List Nat → List Nat
  | 0, acc => acc
  | fuel + 1, acc =>
    let v := w32 (smallSigma1 (acc.getD 1 0) + acc.getD 6 0 +
      smallSigma0 (acc.getD 14 0) + acc.getD 15 0)
    schedExtend fuel (v :: acc)

/-- Full 64-word message schedule of one 64-byte block. -/
def sha256Schedule (block : List Nat) : List Nat :=
  (schedExtend 48 (bytesToWords block).reverse).reverse

/-- One SHA-256 round, fed the pair of round constant and schedule word. -/
def sha256Round (st : Hash8) (kw : Nat × Nat) : Hash8 :=
  let t1 := w32 (st.hh + bigSigma1 st.e + shaCh st.e st.f st.g + kw.1 + kw.2)
  let t2 := w32 (bigSigma0 st.a + shaMaj st.a st.b st.c)
  ⟨w32 (t1 + t2), st.a, st.b, st.c, w32 (st.d + t1), st.e, st.f, st.g⟩

/-- Compress one 64-byte block into the running state. -/
def sha256Compress (st : Hash8) (block : List Nat) : Hash8 :=
  let fin := (K256.zip (sha256Schedule block)).foldl sha256Round st
  ⟨w32 (st.a + fin.a), w32 (st.b + fin.b), w32 (st.c + fin.c), w32 (st.d + fin.d),
   w32 (st.e + fin.e), w32 (st.f + fin.f), w32 (st.g + fin.g), w32 (st.hh + fin.hh)⟩

/-- Split a padded message into 64-byte blocks (fuel-driven). -/
def toBlocks : Nat → List Nat → List (List Nat)
  | 0, _ => []
  | _, [] => []
  | fuel + 1, bs => bs.take 64 :: toBlocks fuel (bs.drop 64)

/-- SHA-256 of a byte list (the embedding of `hashlib.sha256(..).digest()`). -/
def sha256 (msg : List Nat) : List Nat :=
  let padded := shaPad msg
  let st := (toBlocks padded.length padded).foldl sha256Compress sha256Init
  wordToBytes st.a ++ wordToBytes st.b ++ wordToBytes st.c ++ wordToBytes st.d ++
  wordToBytes st.e ++ wordToBytes st.f ++ wordToBytes st.g ++ wordToBytes st.hh

/-! ### HMAC-SHA256 (`hmac.new(key, msg, hashlib.sha256)`), RFC 2104. -/

/-- HMAC-SHA256 over byte lists: block size 64; a key longer than one block is
first hashed; inner pad `0x36`, outer pad `0x5c`. -/
def hmacSha256 (key msg : List Nat) : List Nat :=
  let k0 := if 64 < key.length then sha256 key else key
  let kp := k0 ++ List.replicate (64 - k0.length) 0
  sha256 ((kp.map fun b => b ^^^ 92) ++ sha256 ((kp.map fun b => b ^^^ 54) ++ msg))

/-! ### Hex rendering and UTF-8 encoding. -/

/-- Lowercase hex digit of `n < 16`. -/
def hexChar (n : Nat) : Char := if n < 10 then Char.ofNat (48 + n) else Char.ofNat (87 + n)

/-- Lowercase hexadecimal string of a byte list (the embedding of
`.hexdigest()`). -/
def hexDigest (bs : List Nat) : String :=
  String.mk (bs.foldr (fun b acc => hexChar (b / 16 % 16) :: hexChar (b % 16) :: acc) [])

/-- UTF-8 bytes of one Unicode scalar value. -/
def utf8EncodeChar (c : Char) : List Nat :=
  let n := c.toNat
  if n < 128 then [n]
  else if n < 2048 then [192 + n / 64, 128 + n % 64]
  else if n < 65536 then [224 + n / 4096, 128 + n / 64 % 64, 128 + n % 64]
  else [240 + n / 262144, 128 + n / 4096 % 64, 128 + n / 64 % 64, 128 + n % 64]

/-- UTF-8 bytes of a string (the embedding of `.encode('utf-8')` on `str`;
Lean strings are sequences of Unicode scalar values, so encoding is total). -/
def utf8Encode (s : String) : List Nat :=
  s.data.foldr (fun c acc => utf8EncodeChar c ++ acc) []

/-- A character is ASCII when its scalar value is below `U+0080`. -/
def asciiChar (c : Char) : Bool := c.toNat < 128

/-- A string is ASCII-only when every character is ASCII. -/
def isAsciiStr (s : String) : Bool := s.data.all asciiChar

/-! ### Python values and exceptions.

`exceptions.py` defines the `BitFlowError` family; the webhook and client code
additionally raises / catches the built-in `TypeError`, `KeyError`,
`ValueError`, `json.JSONDecodeError` and `AttributeError`.  All live in one
inductive, mirroring Python's single exception world.  `PyVal` is the small
dynamic-value domain needed to express the untyped-input behaviors the spec
mentions (a non-`str` webhook secret). -/

/-- A Python value, as far as the claims need the dynamic type system. -/
inductive PyVal where
  | str (s : String)
  | pynone
  | int (n : Int)

/-- Python's type name of a value, as it appears in error messages. -/
def PyVal.typeName : PyVal → String
  | .str _ => "str"
  | .pynone => "NoneType"
  | .int _ => "int"

/-- Python exceptions raised anywhere in the embedded code.  The first six
mirror `exceptions.py`: every `BitFlowError` carries `message`, optional
`code`, optional `status_code`; `RateLimitError` (code
`"RATE_LIMIT_EXCEEDED"`, status 429) additionally carries `retry_after`.
`otherError` stands for any further exception a user callback may raise. -/
inductive PyErr where
  | bitflowError (message : String) (code : Option String) (statusCode : Option Nat)
  | authenticationError (message : String)
  | validationError (message : String)
  | notFoundError (message : String)
  | rateLimitError (message : String) (retryAfter : Option Int)
  | networkError (message : String)
  | typeError (message : String)
  | keyError (key : String)
  | valueError (message : String)
  | jsonDecodeError (message : String)
  | attributeError (message : String)
  | otherError (tag : String)

/-- The embedding of `str(e)` on an exception (`KeyError` renders the repr of
its key; the others render their message). -/
def PyErr.pyStr : PyErr → String
  | .keyError k => "'" ++ k ++ "'"
  | .valueError m => m
  | .jsonDecodeError m => m
  | .typeError m => m
  | .attributeError m => m
  | .bitflowError m _ _ => m
  | .authenticationError m => m
  | .validationError m => m
  | .notFoundError m => m
  | .rateLimitError m _ => m
  | .networkError m => m
  | .otherError t => t

/-- The embedding of `x.encode('utf-8')`: only `str` has the attribute, and a
Lean string (a sequence of Unicode scalar values) always encodes. -/
def pyEncodeUtf8 : PyVal → Except PyErr (List Nat)
  | .str s => .ok (utf8Encode s)
  | v => .error (.attributeError ("'" ++ v.typeName ++ "' object has no attribute 'encode'"))

/-- The embedding of `hmac.compare_digest` on two `str` arguments: both must
be ASCII-only (otherwise `TypeError`), and the comparison decides plain
equality — its constant-time execution is a timing property with no
observable counterpart in the embedding. -/
def compare_digest (a b : String) : Except PyErr Bool :=
  if isAsciiStr a && isAsciiStr b then .ok (a == b)
  else .error (.typeError "comparing strings with non-ASCII characters is not supported")

/-- Body of `WebhookHandler.verify_signature` (webhook.py lines 34-41): the
`try` block computing the expected HMAC-SHA256 hex digest and comparing. -/
def verify_signature_body (secret : PyVal) (payload signature : String) : Except PyErr Bool :=
  match pyEncodeUtf8 secret with
  | .error e => .error e
  | .ok key => compare_digest signature (hexDigest (hmacSha256 key (utf8Encode payload)))

/-- `WebhookHandler.verify_signature` (webhook.py lines 24-43): the body with
any exception caught and mapped to `False`. -/
def verify_signature (secret : PyVal) (payload signature : String) : Bool :=
  match verify_signature_body secret payload signature with
  | .ok b => b
  | .error _ => false

/-- The signature value the handler computes for a given secret and payload:
lowercase hex of HMAC-SHA256 keyed by the secret over the payload. -/
def expected_sig (secret payload : String) : String :=
  hexDigest (hmacSha256 (utf8Encode secret) (utf8Encode payload))

/-! ### JSON values and `json.loads`.

The webhook body is parsed by `json.loads` (webhook.py line 62).  The parser
below covers the JSON grammar the SDK's payloads use, with two declared
restrictions: numbers are integers (no fraction/exponent forms) and string
escapes exclude `\uXXXX`; inputs outside the subset are parse errors.  A
parse failure is `json.JSONDecodeError`, a `ValueError` subclass. -/

/-- A parsed JSON value.  Objects keep their members in source order; lookup
is last-wins, matching the dict `json.loads` builds. -/
inductive JsonVal where
  | null
  | bool (b : Bool)
  | num (n : Int)
  | str (s : String)
  | arr (items : List JsonVal)
  | obj (members : List (String × JsonVal))

/-- JSON whitespace. -/
def isJsonWs (c : Char) : Bool := c = ' ' || c = '\t' || c = '\n' || c = '\r'

/-- Drop leading whitespace. -/
def skipWs : List Char → List Char
  | [] => []
  | c :: cs => if isJsonWs c then skipWs cs else c :: cs

/-- Translate one escape character of a JSON string literal. -/
def escChar : Char → Except String Char
  | '"' => .ok '"'
  | '\\' => .ok '\\'
  | '/' => .ok '/'
  | 'n' => .ok '\n'
  | 't' => .ok '\t'
  | 'r' => .ok '\r'
  | 'b' => .ok (Char.ofNat 8)
  | 'f' => .ok (Char.ofNat 12)
  | _ => .error "Invalid escape"

/-- Characters of a JSON string literal after the opening quote, and the rest
of the input after the closing quote. -/
def parseStrChars : List Char → Except String (List Char × List Char)
  | [] => .error "Unterminated string"
  | '"' :: cs => .ok ([], cs)
  | '\\' :: [] => .error "Unterminated string"
  | '\\' :: e :: cs => do
    let ec ← escChar e
    let (s, r) ← parseStrChars cs
    .ok (ec :: s, r)
  | c :: cs => do
    let (s, r) ← parseStrChars cs
    .ok (c :: s, r)

/-- Accumulate decimal digits. -/
def readDigits (acc : Nat) : List Char → Nat × List Char
  | [] => (acc, [])
  | c :: cs =>
    if c.isDigit then readDigits (acc * 10 + (c.toNat - 48)) cs else (acc, c :: cs)

/-- Reject the fraction/exponent continuations the integer-only number model
excludes. -/
def rejectFrac : List Char → Except String Unit
  | c :: _ =>
    if c = '.' || c = 'e' || c = 'E' then .error "Non-integer JSON number outside model"
    else .ok ()
  | [] => .ok ()

/-- Parse the digits of a number whose sign was already consumed. -/
def parseNumFrom (neg : Bool) (cs : List Char) : Except String (JsonVal × List Char) :=
  match cs with
  | c :: _ =>
    if c.isDigit then
      let (n, r) := readDigits 0 cs
      match rejectFrac r with
      | .error m => .error m
      | .ok _ => .ok (.num (if neg then -(n : Int) else (n : Int)), r)
    else .error "Expecting value"
  | [] => .error "Expecting value"

/-- Comma-separated array items (called on a non-empty array body); `pv`
parses one value at the enclosing recursion depth. -/
def parseArrItems (pv : List Char → Except String (JsonVal × List Char)) :
    Nat → List Char → Except String (List JsonVal × List Char)
  | 0, _ => .error "Nesting fuel exhausted"
  | fuel + 1, cs => do
    let (v, r) ← pv cs
    match skipWs r with
    | ',' :: r2 => do
      let (vs, r3) ← parseArrItems pv fuel r2
      .ok (v :: vs, r3)
    | ']' :: r2 => .ok ([v], r2)
    | _ => .error "Expecting delimiter"

/-- Comma-separated object members (called on a non-empty object body). -/
def parseObjItems (pv : List Char → Except String (JsonVal × List Char)) :
    Nat → List Char → Except String (List (String × JsonVal) × List Char)
  | 0, _ => .error "Nesting fuel exhausted"
  | fuel + 1, cs =>
    match skipWs cs with
    | '"' :: r => do
      let (kcs, r2) ← parseStrChars r
      match skipWs r2 with
      | ':' :: r3 => do
        let (v, r4) ← pv r3
        match skipWs r4 with
        | ',' :: r5 => do
          let (ms, r6) ← parseObjItems pv fuel r5
          .ok ((String.mk kcs, v) :: ms, r6)
        | '}' :: r5 => .ok ([(String.mk kcs, v)], r5)
        | _ => .error "Expecting delimiter"
      | _ => .error "Expecting colon delimiter"
    | _ => .error "Expecting property name enclosed in double quotes"

/-- Parse one JSON value; `fuel` bounds the recursion and exceeds any input's
nesting depth when seeded with the input length. -/
def parseVal : Nat → List Char → Except String (JsonVal × List Char)
  | 0, _ => .error "Nesting fuel exhausted"
  | fuel + 1, cs =>
    match skipWs cs with
    | [] => .error "Expecting value"
    | 'n' :: 'u' :: 'l' :: 'l' :: r => .ok (.null, r)
    | 't' :: 'r' :: 'u' :: 'e' :: r => .ok (.bool true, r)
    | 'f' :: 'a' :: 'l' :: 's' :: 'e' :: r => .ok (.bool false, r)
    | '"' :: r => do
      let (scs, r2) ← parseStrChars r
      .ok (.str (String.mk scs), r2)
    | '[' :: r =>
      (match skipWs r with
       | ']' :: r2 => .ok (.arr [], r2)
       | r1 => do
         let (vs, r2) ← parseArrItems (parseVal fuel) fuel r1
         .ok (.arr vs, r2))
    | '{' :: r =>
      (match skipWs r with
       | '}' :: r2 => .ok (.obj [], r2)
       | r1 => do
         let (ms, r2) ← parseObjItems (parseVal fuel) fuel r1
         .ok (.obj ms, r2))
    | '-' :: r => parseNumFrom true r
    | c :: r =>
      if c.isDigit then parseNumFrom false (c :: r) else .error "Expecting value"

/-- Embedding of `json.loads`: parse one value, allow trailing whitespace,
reject trailing data; failures raise `json.JSONDecodeError`. -/
def jsonLoads (s : String) : Except PyErr JsonVal :=
  match parseVal (s.length + 1) s.data with
  | .error m => .error (.jsonDecodeError m)
  | .ok (v, rest) =>
    match skipWs rest with
    | [] => .ok v
    | _ => .error (.jsonDecodeError "Extra data")

/-- Lookup in an embedded dict: a later duplicate member overwrites an
earlier one, as in the dict `json.loads` builds. -/
def dictGet (members : List (String × JsonVal)) (k : String) : Option JsonVal :=
  members.foldl (fun acc kv => if kv.1 = k then some kv.2 else acc) none

/-- Embedding of `x[k]` subscripting with a string key: dict lookup raising
`KeyError` when the key is absent; every non-dict JSON value raises
`TypeError`, with Python's message per type. -/
def getItem (v : JsonVal) (k : String) : Except PyErr JsonVal :=
  match v with
  | .obj ms =>
    match dictGet ms k with
    | some x => .ok x
    | none => .error (.keyError k)
  | .str _ => .error (.typeError "string indices must be integers")
  | .arr _ => .error (.typeError "list indices must be integers or slices, not str")
  | .num _ => .error (.typeError "'int' object is not subscriptable")
  | .bool _ => .error (.typeError "'bool' object is not subscriptable")
  | .null => .error (.typeError "'NoneType' object is not subscriptable")

/-- Python `repr` of a JSON value, as far as error messages need it
(container reprs are abbreviated). -/
def jsonRepr : JsonVal → String
  | .str s => "'" ++ s ++ "'"
  | .num n => toString n
  | .bool true => "True"
  | .bool false => "False"
  | .null => "None"
  | .arr _ => "[...]"
  | .obj _ => "\x7b...\x7d"

/-! ### The webhook handler (`webhook.py`). -/

/-- Embedding of the `WebhookEvent` enumeration of `types.py`: the closed set
of recognized event names. -/
inductive WebhookEvent where
  | stream_created
  | stream_cancelled
  | stream_completed
  | subscription_created
  | subscription_cancelled
  | payment_received

/-- Value string of each enum member, as in `types.py` lines 8-15. -/
def WebhookEvent.value : WebhookEvent → String
  | .stream_created => "stream.created"
  | .stream_cancelled => "stream.cancelled"
  | .stream_completed => "stream.completed"
  | .subscription_created => "subscription.created"
  | .subscription_cancelled => "subscription.cancelled"
  | .payment_received => "payment.received"

/-- Embedding of the `WebhookEvent(x)` enum constructor call at webhook.py
line 65: exactly the six value strings are accepted; any other value raises
`ValueError`. -/
def webhookEventOfVal : JsonVal → Except PyErr WebhookEvent
  | .str "stream.created" => .ok .stream_created
  | .str "stream.cancelled" => .ok .stream_cancelled
  | .str "stream.completed" => .ok .stream_completed
  | .str "subscription.created" => .ok .subscription_created
  | .str "subscription.cancelled" => .ok .subscription_cancelled
  | .str "payment.received" => .ok .payment_received
  | v => .error (.valueError (jsonRepr v ++ " is not a valid WebhookEvent"))

/-- Embedding of the `WebhookPayload` dataclass of `types.py`: the envelope
built at webhook.py lines 63-68.  Only `event` is validated by construction;
`id`, `data` and `timestamp` hold whatever the JSON carried. -/
structure WebhookPayload where
  id : JsonVal
  event : WebhookEvent
  data : JsonVal
  timestamp : JsonVal

/-- Record of one callback invocation during dispatch: `specific` is the
`(data, payload)` call of a per-event handler (webhook.py lines 72-74),
`generic` the `(payload)` call of the reserved `"webhook"` handler (line 78). -/
inductive Invocation where
  | specific (data : JsonVal) (payload : WebhookPayload)
  | generic (payload : WebhookPayload)

/-- A registered callback: it receives its invocation and either returns or
raises an exception. -/
def Callback := Invocation → Except PyErr Unit

/-- The `_event_handlers` dict: event-name string to callback. -/
def HandlerMap := String → Option Callback

/-- Embedding of `WebhookHandler.on_event` (webhook.py lines 85-92): dict
assignment at the event's value string. -/
def on_event (m : HandlerMap) (event : WebhookEvent) (handler : Callback) : HandlerMap :=
  fun k => if k = event.value then some handler else m k

/-- Embedding of `WebhookHandler.on_webhook` (webhook.py lines 94-100): dict
assignment at the reserved key `"webhook"`. -/
def on_webhook (m : HandlerMap) (handler : Callback) : HandlerMap :=
  fun k => if k = "webhook" then some handler else m k

/-- State of a `WebhookHandler`: the secret from the constructor and the
`_event_handlers` dict. -/
structure WebhookHandler where
  secret : PyVal
  event_handlers : HandlerMap

/-- Embedding of webhook.py lines 62-68: `json.loads`, then the subscript
lookups and the `WebhookEvent` construction, in the source's evaluation
order (`id`, `event`, `data`, `timestamp`). -/
def parse_payload (payload : String) : Except PyErr WebhookPayload :=
  match jsonLoads payload with
  | .error e => .error e
  | .ok webhook_data =>
    match getItem webhook_data "id" with
    | .error e => .error e
    | .ok idv =>
      match getItem webhook_data "event" with
      | .error e => .error e
      | .ok eventv =>
        match webhookEventOfVal eventv with
        | .error e => .error e
        | .ok event =>
          match getItem webhook_data "data" with
          | .error e => .error e
          | .ok datav =>
            match getItem webhook_data "timestamp" with
            | .error e => .error e
            | .ok tsv => .ok ⟨idv, event, datav, tsv⟩

/-- Which exceptions the `except (json.JSONDecodeError, KeyError, ValueError)`
clause at webhook.py line 82 matches.  `json.JSONDecodeError` is itself a
`ValueError` subclass; both appear in the tuple. -/
def caughtByPayloadExcept : PyErr → Bool
  | .jsonDecodeError _ => true
  | .keyError _ => true
  | .valueError _ => true
  | _ => false

/-- The `BitFlowError` built at webhook.py line 83 from a caught exception. -/
def invalidPayloadError (e : PyErr) : PyErr :=
  .bitflowError ("Invalid webhook payload: " ++ e.pyStr) (some "INVALID_PAYLOAD") none

/-- Embedding of webhook.py lines 76-78: the generic-callback step.  Returns
the outcome paired with the invocations performed. -/
def runGeneric (m : HandlerMap) (wp : WebhookPayload) : Except PyErr Unit × List Invocation :=
  match m "webhook" with
  | some cb => (cb (.generic wp), [.generic wp])
  | none => (.ok (), [])

/-- Embedding of webhook.py lines 70-78: per-event dispatch followed by the
generic step; an exception from the per-event callback aborts the dispatch
before the generic step runs. -/
def runHandlers (m : HandlerMap) (wp : WebhookPayload) : Except PyErr Unit × List Invocation :=
  match m wp.event.value with
  | some cb =>
    match cb (.specific wp.data wp) with
    | .error e => (.error e, [.specific wp.data wp])
    | .ok _ =>
      let (r, log) := runGeneric m wp
      (r, .specific wp.data wp :: log)
  | none => runGeneric m wp

/-- Embedding of `WebhookHandler.process_webhook` (webhook.py lines 45-83).
The result pairs the Python outcome — `ok true` for `return True`, or the
raised exception — with the list of callback invocations performed.
Structure as in the source: the signature check raising the
`INVALID_SIGNATURE` `BitFlowError` (lines 58-59); then the `try` block
(parse, dispatch, `return True`), whose `except` clause converts a caught
`JSONDecodeError`/`KeyError`/`ValueError` into the `INVALID_PAYLOAD`
`BitFlowError` while any other exception propagates unchanged. -/
def process_webhook (h : WebhookHandler) (payload signature : String) :
    Except PyErr Bool × List Invocation :=
  if verify_signature h.secret payload signature then
    match parse_payload payload with
    | .error e =>
      (.error (if caughtByPayloadExcept e then invalidPayloadError e else e), [])
    | .ok webhook_payload =>
      match runHandlers h.event_handlers webhook_payload with
      | (.error e, log) =>
        (.error (if caughtByPayloadExcept e then invalidPayloadError e else e), log)
      | (.ok _, log) => (.ok true, log)
  else
    (.error (.bitflowError "Invalid webhook signature" (some "INVALID_SIGNATURE") none), [])

/-! ### The API client (`client.py`), as far as the claims reach:
query-parameter construction of `get_streams` and the status-code dispatch
of `_request`. -/

/-- Embedding of the `StreamStatus` enumeration of `types.py`. -/
inductive StreamStatus where
  | active
  | completed
  | cancelled

/-- Value string of each status. -/
def StreamStatus.value : StreamStatus → String
  | .active => "active"
  | .completed => "completed"
  | .cancelled => "cancelled"

/-- Embedding of the `StreamFilters` dataclass (`types.py`): all fields
optional. -/
structure StreamFilters where
  limit : Option Int := none
  offset : Option Int := none
  status : Option StreamStatus := none

/-- A value in the `params` dict handed to `requests`. -/
inductive ParamVal where
  | str (s : String)
  | int (n : Int)

/-- String rendering a query-value receives in the encoded query. -/
def ParamVal.render : ParamVal → String
  | .str s => s
  | .int n => toString n

/-- Embedding of the query-parameter construction of `BitFlowClient.get_streams`
(client.py lines 148-155).  Each field is gated by Python truthiness, as the
source's bare `if filters.status:` / `if filters.limit:` / `if filters.offset:`
tests are: `None` is falsy, the str-valued enum is truthy iff its value string
is non-empty, an int is truthy iff it is non-zero. -/
def get_streams_params (filters : Option StreamFilters) : List (String × ParamVal) :=
  match filters with
  | none => []
  | some f =>
    (match f.status with
     | some st => if st.value ≠ "" then [("status", .str st.value)] else []
     | none => []) ++
    (match f.limit with
     | some l => if l ≠ 0 then [("limit", .int l)] else []
     | none => []) ++
    (match f.offset with
     | some o => if o ≠ 0 then [("offset", .int o)] else []
     | none => [])

/-- Serialization of the params dict into the query string (the encoding
`requests` applies; none of the embedded values needs percent-escaping). -/
def urlencodeParams (ps : List (String × ParamVal)) : String :=
  String.intercalate "&" (ps.map fun kv => kv.1 ++ "=" ++ kv.2.render)

/-- An HTTP response as `_request` observes it: status code, headers, body
text. -/
structure HttpResponse where
  status_code : Nat
  headers : List (String × String)
  bodyText : String

/-- ASCII lowercasing of one character (header names are ASCII). -/
def lowerChar (c : Char) : Char :=
  if 65 ≤ c.toNat && c.toNat ≤ 90 then Char.ofNat (c.toNat + 32) else c

/-- ASCII lowercasing of a string. -/
def lowerStr (s : String) : String := String.mk (s.data.map lowerChar)

/-- Embedding of `response.headers.get(k)`: `requests` exposes headers as a
case-insensitive dict, so the name comparison folds case. -/
def headersGet (headers : List (String × String)) (k : String) : Option String :=
  (headers.find? fun kv => lowerStr kv.1 = lowerStr k).map fun kv => kv.2

/-- Embedding of `int(s)` on a string: surrounding whitespace allowed, then an
optional sign and at least one digit (the underscore grammar is unused here);
anything else raises `ValueError` with Python's message. -/
def pyIntOfString (s : String) : Except PyErr Int :=
  let core := ((skipWs s.data).reverse |> skipWs).reverse
  let signed : Bool × List Char :=
    match core with
    | '-' :: rest => (true, rest)
    | '+' :: rest => (false, rest)
    | _ => (false, core)
  if signed.2 ≠ [] && signed.2.all (·.isDigit) then
    let n : Nat := signed.2.foldl (fun acc c => acc * 10 + (c.toNat - 48)) 0
    .ok (if signed.1 then -(n : Int) else (n : Int))
  else
    .error (.valueError ("invalid literal for int() with base 10: '" ++ s ++ "'"))

/-- Embedding of `response.json()`. -/
def responseJson (r : HttpResponse) : Except PyErr JsonVal := jsonLoads r.bodyText

/-- Embedding of `d.get(k, default)`: dict lookup with default; a non-dict
value has no `get` attribute. -/
def pyGetDefault (v : JsonVal) (k : String) (dflt : JsonVal) : Except PyErr JsonVal :=
  match v with
  | .obj ms => .ok ((dictGet ms k).getD dflt)
  | other => .error (.attributeError ("'" ++ jsonRepr other ++ "' object has no attribute 'get'"))

/-- String content an error-message slot receives from a JSON field. -/
def jsonToMessage : JsonVal → String
  | .str s => s
  | v => jsonRepr v

/-- Embedding of the `response.json().get("error", {}).get("message", dflt)`
chain of the 400 / 404 / generic branches of `_request`. -/
def errorField (r : HttpResponse) (field : String) (dflt : String) : Except PyErr String :=
  match responseJson r with
  | .error e => .error e
  | .ok j =>
    match pyGetDefault j "error" (.obj []) with
    | .error e => .error e
    | .ok error_data =>
      match pyGetDefault error_data field (.str dflt) with
      | .error e => .error e
      | .ok m => .ok (jsonToMessage m)

/-- Embedding of the status-code dispatch of `BitFlowClient._request`
(client.py lines 93-116), applied to the response the transport returned.
The session, retry and transport-failure machinery is outside the embedding
boundary.  Branch order and contents follow the source: 401, 400, 404, 429
(with `Retry-After` under truthiness and `int()` conversion), any other
status of at least 400, else `response.json()`. -/
def handleResponse (response : HttpResponse) : Except PyErr JsonVal :=
  if response.status_code = 401 then
    .error (.authenticationError "Invalid API key")
  else if response.status_code = 400 then
    match errorField response "message" "Bad request" with
    | .error e => .error e
    | .ok msg => .error (.validationError msg)
  else if response.status_code = 404 then
    match errorField response "message" "Not found" with
    | .error e => .error e
    | .ok msg => .error (.notFoundError msg)
  else if response.status_code = 429 then
    match headersGet response.headers "Retry-After" with
    | some s =>
      if s ≠ "" then
        match pyIntOfString s with
        | .error e => .error e
        | .ok n => .error (.rateLimitError "Rate limit exceeded" (some n))
      else .error (.rateLimitError "Rate limit exceeded" none)
    | none => .error (.rateLimitError "Rate limit exceeded" none)
  else if 400 ≤ response.status_code then
    match responseJson response with
    | .error e => .error e
    | .ok j =>
      match pyGetDefault j "error" (.obj []) with
      | .error e => .error e
      | .ok error_data =>
        match pyGetDefault error_data "message" (.str "API request failed") with
        | .error e => .error e
        | .ok m =>
          match pyGetDefault error_data "code" .null with
          | .error e => .error e
          | .ok c =>
            .error (.bitflowError (jsonToMessage m)
              (match c with
               | .null => none
               | v => some (jsonToMessage v))
              (some response.status_code))
  else
    responseJson response

/-! ### Validation of the hash embedding.

The SHA-256 and HMAC-SHA256 embeddings are checked against the standard
FIPS 180-4 test vectors and RFC 4231 test case 2.  These evaluations also
exercise the padding, schedule, compression, constant derivation, UTF-8 and
hex layers end to end. -/

set_option maxRecDepth 100000

/-- FIPS 180-4 test vector: SHA-256 of `"abc"`. -/
theorem sha256_vector_abc :
    hexDigest (sha256 (utf8Encode "abc")) =
      "ba7816bf8f01cfea414140de5dae2223b00361a396177a9cb410ff61f20015ad" := by decide

/-- FIPS 180-4 test vector: SHA-256 of the empty message. -/
theorem sha256_vector_empty :
    hexDigest (sha256 []) =
      "e3b0c44298fc1c149afbf4c8996fb92427ae41e4649b934ca495991b7852b855" := by decide

/-- FIPS 180-4 test vector: SHA-256 of the 56-byte two-block message.  Its
length is 56 mod 64, so it exercises the padding branch that adds a whole
extra block (63 zero bytes, 128-byte padded message). -/
theorem sha256_vector_two_block :
    hexDigest (sha256 (utf8Encode "abcdbcdecdefdefgefghfghighijhijkijkljklmklmnlmnomnopnopq")) =
      "248d6a61d20638b8e5c026930c3e6039a33ce45964ff2167f6ecedd419db06c1" := by decide

/-- Padding length check at the residue the extra-block branch covers: a
56-byte message pads to two full blocks. -/
theorem shaPad_length_residue56 :
    (shaPad (List.replicate 56 0)).length = 128 := by decide

/-- RFC 4231 test case 2: HMAC-SHA256 with key `"Jefe"`. -/
theorem hmac_vector_rfc4231 :
    hexDigest (hmacSha256 (utf8Encode "Jefe") (utf8Encode "what do ya want for nothing?")) =
      "5bdcc146bf60754e6a042426089575c75a003f089d2739839dec58b964ec3843" := by decide

/-- HMAC-SHA256 with a 56-byte message, so the inner hash input is 120 bytes —
length 56 mod 64, the extra-block padding class (reference value from
Python's `hmac`/`hashlib`). -/
theorem hmac_vector_extra_block :
    hexDigest (hmacSha256 (utf8Encode "test-secret")
      (utf8Encode "abcdbcdecdefdefgefghfghighijhijkijkljklmklmnlmnomnopnopq")) =
      "a662c6a1c0e1dcbb9e4600746ab4a52378845abb148a8e6de1dcf36ec8d3f185" := by decide

/-! ### Helper lemmas about signature verification. -/

/-- Hex digits are ASCII. -/
theorem hexChar_toNat_lt (n : Nat) (hn : n < 16) : (hexChar n).toNat < 128 := by
  interval_cases n <;> decide

/-- The character list a hex digest is built from is all-ASCII. -/
theorem all_ascii_hexChars (bs : List Nat) :
    (bs.foldr (fun b acc => hexChar (b / 16 % 16) :: hexChar (b % 16) :: acc) []).all
      asciiChar = true := by
  induction bs with
  | nil => rfl
  | cons b rest ih =>
    simp only [List.foldr_cons, List.all_cons, Bool.and_eq_true]
    refine ⟨?_, ?_, ih⟩
    · exact decide_eq_true (hexChar_toNat_lt _ (Nat.mod_lt _ (by decide)))
    · exact decide_eq_true (hexChar_toNat_lt _ (Nat.mod_lt _ (by decide)))

/-- A hex digest is an ASCII-only string. -/
theorem isAsciiStr_hexDigest (bs : List Nat) : isAsciiStr (hexDigest bs) = true :=
  all_ascii_hexChars bs

/-- The expected signature string is ASCII-only. -/
theorem isAscii_expected_sig (S P : String) : isAsciiStr (expected_sig S P) = true :=
  isAsciiStr_hexDigest _

/-- Unfolding equation for `expected_sig`. -/
theorem expected_sig_def (S P : String) :
    expected_sig S P = hexDigest (hmacSha256 (utf8Encode S) (utf8Encode P)) := rfl

/-- Closed form of `verify_signature` on a string secret: ASCII check on the
supplied signature, then string equality with the expected signature. -/
theorem verify_signature_str (S payload g : String) :
    verify_signature (.str S) payload g = (isAsciiStr g && (g == expected_sig S payload)) := by
  have hbody : verify_signature_body (.str S) payload g =
      compare_digest g (expected_sig S payload) := rfl
  unfold verify_signature
  rw [hbody]
  unfold compare_digest
  rw [isAscii_expected_sig, Bool.and_true]
  cases hg : isAsciiStr g <;> simp [hg]

/-- The handler accepts the signature it computes itself. -/
theorem verify_expected (S payload : String) :
    verify_signature (.str S) payload (expected_sig S payload) = true := by
  rw [verify_signature_str, isAscii_expected_sig, beq_self_eq_true, Bool.and_self]

/-! ### Concrete dispatch scenarios used by witnesses and counterexamples. -/

/-- Empty registration map (a fresh handler). -/
def emptyHandlers : HandlerMap := fun _ => none

/-- A callback that returns normally. -/
def cbOk : Callback := fun _ => .ok ()

/-- A callback that raises `ValueError("boom")` — a type the `except` tuple of
`process_webhook` happens to match. -/
def cbRaiseValueError : Callback := fun _ => .error (.valueError "boom")

/-- A callback that raises an exception outside the `except` tuple of
`process_webhook`. -/
def cbRaiseOther : Callback := fun _ => .error (.otherError "boom")

/-- A well-formed `stream.created` webhook body. -/
def samplePayload : String :=
  "\x7b\"id\": \"evt_1\", \"event\": \"stream.created\", \"data\": \x7b\x7d, \"timestamp\": \"2023-12-01\"\x7d"

/-- The valid signature of `samplePayload` under secret `"test-secret"`. -/
def sampleSig : String := expected_sig "test-secret" samplePayload

/-- The envelope `samplePayload` parses to. -/
def sampleWp : WebhookPayload := ⟨.str "evt_1", .stream_created, .obj [], .str "2023-12-01"⟩

/-- A handler with no callbacks registered. -/
def hNoCb : WebhookHandler := ⟨.str "test-secret", emptyHandlers⟩

/-- A handler with a per-event callback for `stream.created` and a generic
callback, both returning normally. -/
def hBoth : WebhookHandler :=
  ⟨.str "test-secret", on_webhook (on_event emptyHandlers .stream_created cbOk) cbOk⟩

/-- A handler whose `stream.created` callback raises `ValueError`; the generic
callback returns normally. -/
def hValueErrSpecific : WebhookHandler :=
  ⟨.str "test-secret", on_webhook (on_event emptyHandlers .stream_created cbRaiseValueError) cbOk⟩

/-- A handler whose `stream.created` callback raises a non-caught exception;
the generic callback returns normally. -/
def hOtherSpecific : WebhookHandler :=
  ⟨.str "test-secret", on_webhook (on_event emptyHandlers .stream_created cbRaiseOther) cbOk⟩

/-- Evaluation check: `samplePayload` parses to `sampleWp`. -/
theorem parse_samplePayload : parse_payload samplePayload = .ok sampleWp := rfl

/-! ### Claim theorems. -/

/-- C1: whenever `verify_signature` returns false, `process_webhook` raises
the `BitFlowError` with code `INVALID_SIGNATURE` and performs no callback
invocation at all, whatever the registration state. -/
theorem invalid_signature_rejects_without_dispatch (h : WebhookHandler)
    (payload signature : String)
    (hv : verify_signature h.secret payload signature = false) :
    process_webhook h payload signature =
      (.error (.bitflowError "Invalid webhook signature" (some "INVALID_SIGNATURE") none), []) := by
  unfold process_webhook
  rw [hv]
  rfl

/-- Witness for C1: a handler with a per-event and a generic callback
registered, receiving a wrong signature: the error is raised and the
invocation log stays empty. -/
theorem invalid_signature_rejects_without_dispatch_witness :
    verify_signature hBoth.secret samplePayload "bad" = false ∧
    process_webhook hBoth samplePayload "bad" =
      (.error (.bitflowError "Invalid webhook signature" (some "INVALID_SIGNATURE") none), []) := by
  have hv : verify_signature hBoth.secret samplePayload "bad" = false := by decide
  exact ⟨hv, invalid_signature_rejects_without_dispatch hBoth samplePayload "bad" hv⟩

/-- C2: on a string secret, `verify_signature` accepts a signature exactly
when it equals the lowercase hexadecimal HMAC-SHA256 of the payload keyed by
the secret; in particular the self-computed signature verifies and every
other string is rejected. -/
theorem verify_signature_iff_expected (S payload sig : String) :
    verify_signature (.str S) payload sig = true ↔ sig = expected_sig S payload := by
  rw [verify_signature_str]
  cases hg : isAsciiStr sig with
  | false =>
    simp only [Bool.false_and]
    constructor
    · intro hfalse; exact absurd hfalse (by decide)
    · intro heq; subst heq; rw [isAscii_expected_sig] at hg; exact absurd hg (by decide)
  | true =>
    simp only [Bool.true_and]
    exact beq_iff_eq

/-- C8: any exception raised inside the verification body makes
`verify_signature` return `False`; being boolean-valued, the wrapped function
propagates nothing. -/
theorem verification_error_fails_closed (secret : PyVal) (payload signature : String)
    (e : PyErr) (hb : verify_signature_body secret payload signature = .error e) :
    verify_signature secret payload signature = false := by
  unfold verify_signature
  rw [hb]

/-- Witness for C8: a non-string secret (`None`) makes the body raise
`AttributeError`, and `verify_signature` returns `False`. -/
theorem verification_error_fails_closed_witness :
    verify_signature_body .pynone "payload" "sig" =
      .error (.attributeError "'NoneType' object has no attribute 'encode'") ∧
    verify_signature .pynone "payload" "sig" = false :=
  ⟨rfl, verification_error_fails_closed _ _ _ _ rfl⟩

/-! ### Analysis lemmas for `parse_payload` and `process_webhook`. -/

/-- Unfolding of `getItem` on a dict. -/
theorem getItem_obj (ms : List (String × JsonVal)) (k : String) :
    getItem (.obj ms) k =
      (match dictGet ms k with
       | some x => .ok x
       | none => .error (.keyError k)) := rfl

/-- On a dict, a failed subscript is exactly a `KeyError` on the key. -/
theorem getItem_obj_error {ms : List (String × JsonVal)} {k : String} {e : PyErr}
    (h : getItem (.obj ms) k = .error e) : e = .keyError k := by
  rw [getItem_obj] at h
  split at h
  · cases h
  · exact (Except.error.inj h).symm

/-- On a dict, a successful subscript is exactly the dict lookup. -/
theorem getItem_obj_ok {ms : List (String × JsonVal)} {k : String} {v : JsonVal}
    (h : getItem (.obj ms) k = .ok v) : dictGet ms k = some v := by
  rw [getItem_obj] at h
  split at h
  · rename_i x hx
    rw [hx]
    exact congrArg some (Except.ok.inj h)
  · cases h

/-- A successful `WebhookEvent(x)` call pins the argument to the member's
value string. -/
theorem webhookEventOfVal_ok {ev : JsonVal} {e : WebhookEvent}
    (h : webhookEventOfVal ev = .ok e) : ev = .str e.value := by
  unfold webhookEventOfVal at h
  split at h
  all_goals cases h
  all_goals rfl

/-- Every failure of `WebhookEvent(x)` is a `ValueError`. -/
theorem webhookEventOfVal_error {ev : JsonVal} {e : PyErr}
    (h : webhookEventOfVal ev = .error e) : ∃ m, e = .valueError m := by
  unfold webhookEventOfVal at h
  split at h
  all_goals cases h
  all_goals exact ⟨_, rfl⟩

/-- A load failure propagates through `parse_payload` unchanged. -/
theorem parse_payload_loads_error {payload : String} {e : PyErr}
    (h : jsonLoads payload = .error e) : parse_payload payload = .error e := by
  unfold parse_payload
  rw [h]

/-- Every load failure is a `JSONDecodeError`. -/
theorem jsonLoads_error_shape {s : String} {e : PyErr}
    (h : jsonLoads s = .error e) : ∃ m, e = .jsonDecodeError m := by
  unfold jsonLoads at h
  split at h
  · cases h
    exact ⟨_, rfl⟩
  · split at h
    · cases h
    · cases h
      exact ⟨_, rfl⟩

/-- A parse failure on a JSON-object body is always an exception the `except`
clause catches (`KeyError` from a missing field or `ValueError` from the
event constructor). -/
theorem parse_obj_error_caught {payload : String} {ms : List (String × JsonVal)} {e : PyErr}
    (hl : jsonLoads payload = .ok (.obj ms))
    (hp : parse_payload payload = .error e) :
    caughtByPayloadExcept e = true := by
  unfold parse_payload at hp
  split at hp
  · rename_i e0 heq0
    rw [hl] at heq0
    cases heq0
  · rename_i wd heq0
    rw [hl] at heq0
    injection heq0 with hwd
    subst hwd
    split at hp
    · rename_i e1 heq1
      cases hp
      rw [getItem_obj_error heq1]
      rfl
    · rename_i idv heq1
      split at hp
      · rename_i e2 heq2
        cases hp
        rw [getItem_obj_error heq2]
        rfl
      · rename_i eventv heq2
        split at hp
        · rename_i e3 heq3
          cases hp
          obtain ⟨m, hm⟩ := webhookEventOfVal_error heq3
          rw [hm]
          rfl
        · rename_i event heq3
          split at hp
          · rename_i e4 heq4
            cases hp
            rw [getItem_obj_error heq4]
            rfl
          · rename_i datav heq4
            split at hp
            · rename_i e5 heq5
              cases hp
              rw [getItem_obj_error heq5]
              rfl
            · cases hp

/-- The shape a successful parse forces on an object body: every envelope
field present, and the `event` member equal to the value string of the
recognized event the envelope carries. -/
theorem parse_obj_ok_shape {payload : String} {ms : List (String × JsonVal)}
    {wp : WebhookPayload}
    (hl : jsonLoads payload = .ok (.obj ms))
    (hp : parse_payload payload = .ok wp) :
    (dictGet ms "id").isSome = true ∧
    dictGet ms "event" = some (.str wp.event.value) ∧
    (dictGet ms "data").isSome = true ∧
    (dictGet ms "timestamp").isSome = true := by
  unfold parse_payload at hp
  split at hp
  · rename_i e0 heq0
    rw [hl] at heq0
    cases heq0
  · rename_i wd heq0
    rw [hl] at heq0
    injection heq0 with hwd
    subst hwd
    split at hp
    · cases hp
    · rename_i idv heq1
      split at hp
      · cases hp
      · rename_i eventv heq2
        split at hp
        · cases hp
        · rename_i event heq3
          split at hp
          · cases hp
          · rename_i datav heq4
            split at hp
            · cases hp
            · rename_i tsv heq5
              injection hp with hwp
              subst hwp
              refine ⟨?_, ?_, ?_, ?_⟩
              · rw [getItem_obj_ok heq1]
                rfl
              · rw [getItem_obj_ok heq2, webhookEventOfVal_ok heq3]
              · rw [getItem_obj_ok heq4]
                rfl
              · rw [getItem_obj_ok heq5]
                rfl

/-- Path of `process_webhook` when the signature verifies but parsing
fails. -/
theorem process_parse_error {h : WebhookHandler} {payload signature : String} {e : PyErr}
    (hv : verify_signature h.secret payload signature = true)
    (hp : parse_payload payload = .error e) :
    process_webhook h payload signature =
      (.error (if caughtByPayloadExcept e then invalidPayloadError e else e), []) := by
  unfold process_webhook
  simp only [hv, hp, eq_self_iff_true, if_true]

/-- Path of `process_webhook` when signature and parse succeed: the outcome
is determined by the dispatch. -/
theorem process_dispatch {h : WebhookHandler} {payload signature : String}
    {wp : WebhookPayload}
    (hv : verify_signature h.secret payload signature = true)
    (hp : parse_payload payload = .ok wp) :
    process_webhook h payload signature =
      (match runHandlers h.event_handlers wp with
       | (.error e, log) =>
         (.error (if caughtByPayloadExcept e then invalidPayloadError e else e), log)
       | (.ok _, log) => (.ok true, log)) := by
  unfold process_webhook
  simp only [hv, hp, eq_self_iff_true, if_true]

/-- C3 (amended): for a validly signed, successfully parsed payload, an
exception `e` raised by an invoked callback propagates unchanged out of
`process_webhook` when it is not a `ValueError` (including
`json.JSONDecodeError`) or `KeyError`; when it is one of those, the `except`
clause catches it and converts it into the `INVALID_PAYLOAD` `BitFlowError`. -/
theorem callback_exception_propagation (h : WebhookHandler) (payload signature : String)
    (wp : WebhookPayload) (e : PyErr) (log : List Invocation)
    (hv : verify_signature h.secret payload signature = true)
    (hp : parse_payload payload = .ok wp)
    (hd : runHandlers h.event_handlers wp = (.error e, log)) :
    (caughtByPayloadExcept e = false →
      process_webhook h payload signature = (.error e, log)) ∧
    (caughtByPayloadExcept e = true →
      process_webhook h payload signature =
        (.error (.bitflowError ("Invalid webhook payload: " ++ e.pyStr)
          (some "INVALID_PAYLOAD") none), log)) := by
  have base := process_dispatch hv hp
  rw [hd] at base
  have base2 : process_webhook h payload signature =
      (.error (if caughtByPayloadExcept e then invalidPayloadError e else e), log) := by
    rw [base]
  constructor
  · intro hc
    rw [base2, hc]
    rfl
  · intro hc
    rw [base2, hc]
    rfl

/-- C3 counterexample: a per-event callback raising `ValueError("boom")` is
caught by `process_webhook` and converted into the `INVALID_PAYLOAD` error
instead of propagating unchanged. -/
theorem callback_exception_propagation_counterexample :
    process_webhook hValueErrSpecific samplePayload sampleSig =
      (.error (.bitflowError "Invalid webhook payload: boom" (some "INVALID_PAYLOAD") none),
       [.specific (.obj []) sampleWp]) := by
  have hv : verify_signature hValueErrSpecific.secret samplePayload sampleSig = true :=
    verify_expected "test-secret" samplePayload
  have base := process_dispatch hv parse_samplePayload
  rw [show runHandlers hValueErrSpecific.event_handlers sampleWp =
      (.error (.valueError "boom"), [.specific (.obj []) sampleWp]) from rfl] at base
  rw [base]
  rfl

/-- Witness for C3 (amended): a callback raising an exception outside the
caught tuple; it propagates unchanged. -/
theorem callback_exception_propagation_witness :
    process_webhook hOtherSpecific samplePayload sampleSig =
      (.error (.otherError "boom"), [.specific (.obj []) sampleWp]) := by
  have hv : verify_signature hOtherSpecific.secret samplePayload sampleSig = true :=
    verify_expected "test-secret" samplePayload
  have hd : runHandlers hOtherSpecific.event_handlers sampleWp =
      (.error (.otherError "boom"), [.specific (.obj []) sampleWp]) := rfl
  exact (callback_exception_propagation hOtherSpecific samplePayload sampleSig sampleWp
    (.otherError "boom") [.specific (.obj []) sampleWp] hv parse_samplePayload hd).1 rfl

/-- C5 (amended): with a valid signature, a payload whose body fails to
parse, or parses to a JSON object lacking one of the four envelope fields,
or whose `event` member is not one of the six recognized names, makes
`process_webhook` raise a `BitFlowError` with code `INVALID_PAYLOAD` and
invoke no callback.  (A body parsing to a non-object instead raises an
uncaught `TypeError` — see the counterexample.) -/
theorem invalid_payload_rejected (h : WebhookHandler) (payload signature : String)
    (hv : verify_signature h.secret payload signature = true)
    (hcase :
      (∃ e0, jsonLoads payload = .error e0) ∨
      (∃ ms, jsonLoads payload = .ok (.obj ms) ∧
        (dictGet ms "id" = none ∨ dictGet ms "event" = none ∨
         dictGet ms "data" = none ∨ dictGet ms "timestamp" = none)) ∨
      (∃ ms ev, jsonLoads payload = .ok (.obj ms) ∧ dictGet ms "event" = some ev ∧
        ∀ e : WebhookEvent, ev ≠ .str e.value)) :
    ∃ msg, process_webhook h payload signature =
      (.error (.bitflowError msg (some "INVALID_PAYLOAD") none), []) := by
  rcases hcase with ⟨e0, he0⟩ | ⟨ms, hl, hmiss⟩ | ⟨ms, ev, hl, hev, hevne⟩
  · obtain ⟨m, hm⟩ := jsonLoads_error_shape he0
    subst hm
    exact ⟨"Invalid webhook payload: " ++ PyErr.pyStr (.jsonDecodeError m),
      process_parse_error hv (parse_payload_loads_error he0)⟩
  · cases hpp : parse_payload payload with
    | ok wp =>
      exfalso
      obtain ⟨h1, h2, h3, h4⟩ := parse_obj_ok_shape hl hpp
      rcases hmiss with hm | hm | hm | hm
      · rw [hm] at h1
        simp at h1
      · rw [hm] at h2
        cases h2
      · rw [hm] at h3
        simp at h3
      · rw [hm] at h4
        simp at h4
    | error e =>
      have hc := parse_obj_error_caught hl hpp
      have base := process_parse_error hv hpp
      rw [hc] at base
      exact ⟨"Invalid webhook payload: " ++ e.pyStr, base⟩
  · cases hpp : parse_payload payload with
    | ok wp =>
      exfalso
      obtain ⟨_, h2, _, _⟩ := parse_obj_ok_shape hl hpp
      rw [hev] at h2
      injection h2 with h2e
      exact hevne wp.event h2e
    | error e =>
      have hc := parse_obj_error_caught hl hpp
      have base := process_parse_error hv hpp
      rw [hc] at base
      exact ⟨"Invalid webhook payload: " ++ e.pyStr, base⟩

/-- A validly signed body that is a JSON object lacking the `event` field. -/
def missingFieldPayload : String := "\x7b\"id\": \"evt_1\"\x7d"

/-- Witness for C5 (amended): the object body lacking `event` yields the
`INVALID_PAYLOAD` error with an empty invocation log. -/
theorem invalid_payload_rejected_witness :
    ∃ msg, process_webhook hNoCb missingFieldPayload
        (expected_sig "test-secret" missingFieldPayload) =
      (.error (.bitflowError msg (some "INVALID_PAYLOAD") none), []) :=
  invalid_payload_rejected hNoCb missingFieldPayload _
    (verify_expected "test-secret" missingFieldPayload)
    (Or.inr (Or.inl ⟨[("id", .str "evt_1")], rfl, Or.inr (Or.inl rfl)⟩))

/-- C5 counterexample: a validly signed payload whose JSON body is the number
`42` — a body lacking every envelope field — raises an uncaught `TypeError`
from the subscript, not the claimed `INVALID_PAYLOAD` `BitFlowError`. -/
theorem invalid_payload_rejected_counterexample :
    jsonLoads "42" = .ok (.num 42) ∧
    process_webhook hNoCb "42" (expected_sig "test-secret" "42") =
      (.error (.typeError "'int' object is not subscriptable"), []) := by
  refine ⟨rfl, ?_⟩
  have hv : verify_signature hNoCb.secret "42" (expected_sig "test-secret" "42") = true :=
    verify_expected "test-secret" "42"
  have hp : parse_payload "42" = .error (.typeError "'int' object is not subscriptable") := rfl
  exact process_parse_error hv hp

/-- C6 (amended): with a valid signature, a parsed payload and a registered
generic callback, `process_webhook` invokes the generic callback with the
parsed envelope — whether or not a per-event callback is also registered —
provided the per-event callback, if one is registered, returns normally. -/
theorem generic_callback_fires (h : WebhookHandler) (payload signature : String)
    (wp : WebhookPayload) (cbG : Callback)
    (hv : verify_signature h.secret payload signature = true)
    (hp : parse_payload payload = .ok wp)
    (hg : h.event_handlers "webhook" = some cbG)
    (hs : ∀ cbS, h.event_handlers wp.event.value = some cbS →
      cbS (.specific wp.data wp) = .ok ()) :
    Invocation.generic wp ∈ (process_webhook h payload signature).2 := by
  have hgen : Invocation.generic wp ∈ (runGeneric h.event_handlers wp).2 := by
    unfold runGeneric
    rw [hg]
    exact List.mem_singleton.mpr rfl
  have hrun : Invocation.generic wp ∈ (runHandlers h.event_handlers wp).2 := by
    unfold runHandlers
    split
    · rename_i cb heq
      rw [hs cb heq]
      cases hrg : runGeneric h.event_handlers wp with
      | mk r log =>
        rw [hrg] at hgen
        exact List.mem_cons_of_mem _ hgen
    · exact hgen
  have base := process_dispatch hv hp
  cases hrh : runHandlers h.event_handlers wp with
  | mk r log =>
    rw [hrh] at base hrun
    cases r with
    | error e =>
      rw [base]
      exact hrun
    | ok u =>
      rw [base]
      exact hrun

/-- Witness for C6 (amended): per-event and generic callbacks both
registered and well behaved; the generic invocation appears in the log. -/
theorem generic_callback_fires_witness :
    Invocation.generic sampleWp ∈ (process_webhook hBoth samplePayload sampleSig).2 := by
  refine generic_callback_fires hBoth samplePayload sampleSig sampleWp cbOk
    (verify_expected "test-secret" samplePayload) parse_samplePayload rfl ?_
  intro cbS hcb
  have h2 : cbOk = cbS := Option.some.inj hcb
  subst h2
  rfl

/-- C6 counterexample: the per-event callback raises, so the registered
generic callback is never invoked although the payload was validly signed
and successfully parsed. -/
theorem generic_callback_fires_counterexample :
    verify_signature hOtherSpecific.secret samplePayload sampleSig = true ∧
    parse_payload samplePayload = .ok sampleWp ∧
    hOtherSpecific.event_handlers "webhook" = some cbOk ∧
    (process_webhook hOtherSpecific samplePayload sampleSig).2 =
      [.specific (.obj []) sampleWp] ∧
    Invocation.generic sampleWp ∉ (process_webhook hOtherSpecific samplePayload sampleSig).2 := by
  have hv : verify_signature hOtherSpecific.secret samplePayload sampleSig = true :=
    verify_expected "test-secret" samplePayload
  have hfull : process_webhook hOtherSpecific samplePayload sampleSig =
      (.error (.otherError "boom"), [.specific (.obj []) sampleWp]) := by
    have base := process_dispatch hv parse_samplePayload
    rw [show runHandlers hOtherSpecific.event_handlers sampleWp =
        (.error (.otherError "boom"), [.specific (.obj []) sampleWp]) from rfl] at base
    rw [base]
    rfl
  refine ⟨hv, parse_samplePayload, rfl, ?_, ?_⟩
  · rw [hfull]
  · rw [hfull]
    intro hmem
    cases List.mem_singleton.mp hmem

/-- C7: registration semantics of the `_event_handlers` dict.  Re-registering
an event replaces the previous callback (the whole registry maps are equal,
so every later dispatch sees only the second); the replaced slot holds the
second callback; a per-event registration leaves the generic `"webhook"`
slot unchanged; a generic registration leaves every per-event slot
unchanged. -/
theorem registration_last_wins (m : HandlerMap) (e : WebhookEvent) (c1 c2 g : Callback) :
    on_event (on_event m e c1) e c2 = on_event m e c2 ∧
    on_event (on_event m e c1) e c2 e.value = some c2 ∧
    on_event m e c1 "webhook" = m "webhook" ∧
    ∀ e2 : WebhookEvent, on_webhook m g e2.value = m e2.value := by
  refine ⟨funext fun k => ?_, ?_, ?_, fun e2 => ?_⟩
  · unfold on_event
    by_cases hk : k = e.value <;> simp [hk]
  · unfold on_event
    simp
  · unfold on_event
    cases e <;> simp [WebhookEvent.value]
  · unfold on_webhook
    cases e2 <;> simp [WebhookEvent.value]

/-- C9 (amended): a 429 response raises `RateLimitError`; `retry_after` is
the integer value of the `Retry-After` header when one is present and
parses (in particular 30 for `"30"`), and `None` when the header is absent
or empty.  (A malformed header value instead raises the `ValueError` from
`int()` — see the counterexample.) -/
theorem rate_limit_429 (r : HttpResponse) (hs : r.status_code = 429) :
    (∀ s n, headersGet r.headers "Retry-After" = some s → pyIntOfString s = .ok n →
      handleResponse r = .error (.rateLimitError "Rate limit exceeded" (some n))) ∧
    (headersGet r.headers "Retry-After" = some "" →
      handleResponse r = .error (.rateLimitError "Rate limit exceeded" none)) ∧
    (headersGet r.headers "Retry-After" = none →
      handleResponse r = .error (.rateLimitError "Rate limit exceeded" none)) := by
  have h429 : handleResponse r =
      (match headersGet r.headers "Retry-After" with
       | some s =>
         if s ≠ "" then
           (match pyIntOfString s with
            | .error e => .error e
            | .ok n => .error (.rateLimitError "Rate limit exceeded" (some n)))
         else .error (.rateLimitError "Rate limit exceeded" none)
       | none => .error (.rateLimitError "Rate limit exceeded" none)) := by
    unfold handleResponse
    rw [hs]
    rw [if_neg (show ¬(429 = 401) by decide), if_neg (show ¬(429 = 400) by decide),
        if_neg (show ¬(429 = 404) by decide), if_pos (show (429 = 429) from rfl)]
  refine ⟨?_, ?_, ?_⟩
  · intro s n hh hn
    by_cases hse : s = ""
    · subst hse
      rw [show pyIntOfString "" =
          .error (.valueError "invalid literal for int() with base 10: ''") from rfl] at hn
      cases hn
    · rw [h429, hh]
      simp [hse, hn]
  · intro hh
    rw [h429, hh]
    simp
  · intro hh
    rw [h429, hh]

/-- Witness for C9 (amended): concrete 429 responses with `Retry-After: 30`
(case-insensitively looked up) and with no such header. -/
theorem rate_limit_429_witness :
    handleResponse ⟨429, [("Retry-After", "30")], ""⟩ =
      .error (.rateLimitError "Rate limit exceeded" (some 30)) ∧
    handleResponse ⟨429, [], ""⟩ =
      .error (.rateLimitError "Rate limit exceeded" none) :=
  ⟨(rate_limit_429 ⟨429, [("Retry-After", "30")], ""⟩ rfl).1 "30" 30 rfl rfl,
   (rate_limit_429 ⟨429, [], ""⟩ rfl).2.2 rfl⟩

/-- C9 counterexample: a 429 response whose `Retry-After` header is not an
integer makes `_request` raise the `ValueError` from `int()` instead of a
`RateLimitError`. -/
theorem rate_limit_429_counterexample :
    handleResponse ⟨429, [("Retry-After", "abc")], ""⟩ =
      .error (.valueError "invalid literal for int() with base 10: 'abc'") := rfl

/-- C10: whenever `process_webhook` returns normally, the returned value is
`True`; it never returns `False`, so the adapters' `False`-result branches
are unreachable. -/
theorem process_webhook_ok_is_true (h : WebhookHandler) (payload signature : String)
    (b : Bool) (log : List Invocation)
    (hp : process_webhook h payload signature = (.ok b, log)) : b = true := by
  unfold process_webhook at hp
  split at hp
  · split at hp
    · cases hp
    · split at hp
      · cases hp
      · exact (Except.ok.inj (congrArg Prod.fst hp)).symm
  · cases hp

/-- Witness for C10: a validly signed, well-formed payload on a handler with
no callbacks returns `(True, [])`. -/
theorem process_webhook_ok_is_true_witness :
    process_webhook hNoCb samplePayload sampleSig = (.ok true, []) ∧ true = true := by
  have hv : verify_signature hNoCb.secret samplePayload sampleSig = true :=
    verify_expected "test-secret" samplePayload
  have hfull : process_webhook hNoCb samplePayload sampleSig = (.ok true, []) := by
    have base := process_dispatch hv parse_samplePayload
    rw [show runHandlers hNoCb.event_handlers sampleWp =
        (.ok (), ([] : List Invocation)) from rfl] at base
    rw [base]
  exact ⟨hfull, process_webhook_ok_is_true hNoCb samplePayload sampleSig true [] hfull⟩

/-- C4: evaluation of the `get_streams` query construction at the claim's
input.  With `status=active, limit=10, offset=0` the `offset` entry is
dropped — `if filters.offset:` is false at `0` under Python truthiness — so
the query serializes to `status=active&limit=10`, not the claimed
`status=active&limit=10&offset=0`; the result coincides with the one for an
unset `offset`.  This contradicts the spec sentence and the query the repo's
own `test_get_streams_with_filters` registers. -/
theorem get_streams_params_drops_zero_offset :
    get_streams_params (some { status := some .active, limit := some 10, offset := some 0 }) =
      [("status", .str "active"), ("limit", .int 10)] ∧
    urlencodeParams (get_streams_params
      (some { status := some .active, limit := some 10, offset := some 0 })) =
      "status=active&limit=10" ∧
    get_streams_params (some { status := some .active, limit := some 10, offset := none }) =
      [("status", .str "active"), ("limit", .int 10)] ∧
    urlencodeParams (get_streams_params none) = "" := by
  refine ⟨rfl, rfl, rfl, rfl⟩

end BitFlow
